import Mathlib

/-!
# Verification of the Cap'n Proto RPC connection core (`rpc/rpc.go`)

A shallow embedding of the message dispatcher of the RPC connection
(`rpc.go`).  The dispatcher is modelled as a pure function from a
connection state and one decoded inbound message to a new connection
state plus a list of observable effects (messages sent, shutdown,
question/answer resolutions, export releases).

Fallible decoding accessors of the wire format (such as `m.Return()`,
`payload.CapTable()`, `target.PromisedAnswer()`) are modelled as
`Except RpcError` fields carried inside the message value: the
dispatcher inspects the field exactly where the Go code invokes the
accessor.

Helper code that lives outside `rpc.go` (the question/answer table
operations, the export/import tables, the manager) is modelled from the
specification; each such definition is marked in its doc comment.
-/

namespace CapnpRpc

/-- A method descriptor (`capnp.Method`): interface and method ids. -/
structure Method where
  interfaceId : Nat
  methodId : Nat
deriving DecidableEq, Repr

/-- A wire exception (`rpccapnp.Exception`), reduced to its reason text. -/
structure Exc where
  reason : String
deriving DecidableEq, Repr

/-- The error values that flow through the dispatcher.  `decodeErr n` stands
for an arbitrary decoding failure (the token `n` distinguishes instances);
the named constructors mirror the error values of `rpc.go` and its
siblings (`errUnimplemented`, `errQuestionReused`, `errNoMainInterface`,
`errBadTarget`, `errDisembargoNonImport`, `errDisembargoMissingAnswer`,
`ErrConnClosed`, `errShutdown`, `capnp.ErrNullClient`), the dynamic
errors built with `fmt.Errorf`, and the wrappers `capnp.MethodError`,
`bootstrapError` and `questionError`. -/
inductive RpcError where
  | decodeErr (n : Nat)
  | unknownQuestion (id : Nat)
  | unimplemented
  | unknownExportId (id : Nat)
  | unknownAnswerId (id : Nat)
  | questionReused
  | noMainInterface
  | badTarget
  | receiverCanceled (id : Nat) (m : Option Method)
  | methodErr (m : Method) (e : RpcError)
  | bootstrapErr (e : RpcError)
  | exceptionErr (x : Exc)
  | abortExc (x : Exc)
  | connClosed
  | shutdownErr
  | ctxCanceled
  | disembargoNonImport
  | disembargoMissingAnswer
  | nullClient
deriving DecidableEq, Repr

/-- A capability handle (`capnp.Client`) as the dispatcher can observe it:
the nil client, an import proxy, a local capability, a pipeline client of
an answer or of a question, or an error client. -/
inductive Client where
  | nullc
  | importClient (id : Nat)
  | localCap (n : Nat)
  | answerPipeline (aid : Nat) (transform : List Nat)
  | questionPipeline (qid : Nat)
  | errorClient (e : RpcError)
deriving DecidableEq, Repr

/-- A decoded pointer (`capnp.Ptr`), abstracted to the three shapes the
dispatcher distinguishes: the null pointer, an interface pointer carrying
its capability, and opaque data. -/
inductive Ptr where
  | null
  | iface (c : Client)
  | dataPtr (n : Nat)
deriving DecidableEq, Repr

/-- One entry of a `PromisedAnswer.transform` list
(`rpccapnp.PromisedAnswer_Op`). -/
inductive TransformOp where
  | getPointerField (f : Nat)
  | noop
deriving DecidableEq, Repr

/-- Decidable equality for decode results. -/
instance instDecEqExcept {ε α : Type} [DecidableEq ε] [DecidableEq α] :
    DecidableEq (Except ε α) := fun x y =>
  match x, y with
  | .error a, .error b =>
    if h : a = b then isTrue (congrArg Except.error h)
    else isFalse (fun hc => h (Except.error.inj hc))
  | .ok a, .ok b =>
    if h : a = b then isTrue (congrArg Except.ok h)
    else isFalse (fun hc => h (Except.ok.inj hc))
  | .error _, .ok _ => isFalse (fun hc => Except.noConfusion hc)
  | .ok _, .error _ => isFalse (fun hc => Except.noConfusion hc)

/-- A decoded `rpccapnp.PromisedAnswer`: the question id, plus the result
of decoding its transform list (`Transform()` can fail). -/
structure PromisedAnswerMsg where
  questionId : Nat
  transform : Except RpcError (List TransformOp)
deriving DecidableEq, Repr

/-- A decoded `rpccapnp.MessageTarget`.  `PromisedAnswer()` is a fallible
accessor, hence the `Except`. -/
inductive MessageTarget where
  | importedCap (id : Nat)
  | promisedAnswer (d : Except RpcError PromisedAnswerMsg)
  | otherTarget
deriving DecidableEq, Repr

/-- A decoded `rpccapnp.CapDescriptor` variant.  `ReceiverAnswer()` is a
fallible accessor, hence the `Except`. -/
inductive CapDescriptor where
  | cdNone
  | senderHosted (id : Nat)
  | senderPromise (id : Nat)
  | receiverHosted (id : Nat)
  | receiverAnswer (d : Except RpcError PromisedAnswerMsg)
  | cdOther
deriving DecidableEq, Repr

/-- A decoded `rpccapnp.Payload`: the results of decoding its cap table
(`CapTable()`) and its content pointer (`ContentPtr()`). -/
structure Payload where
  capTable : Except RpcError (List CapDescriptor)
  content : Except RpcError Ptr
deriving DecidableEq, Repr

/-- The variant of a `rpccapnp.Return` together with the result of the
variant's accessor (`Results()` and `Exception()` can fail to decode). -/
inductive RetVariant where
  | results (d : Except RpcError Payload)
  | exception (d : Except RpcError Exc)
  | canceled
  | otherRet
deriving DecidableEq, Repr

/-- A decoded `rpccapnp.Return`. -/
structure ReturnMsg where
  answerId : Nat
  releaseParamCaps : Bool
  variant : RetVariant
deriving DecidableEq, Repr

/-- A decoded `rpccapnp.Finish`. -/
structure FinishMsg where
  questionId : Nat
  releaseResultCaps : Bool
deriving DecidableEq, Repr

/-- A decoded `rpccapnp.Release`. -/
structure ReleaseMsg where
  id : Nat
  referenceCount : Nat
deriving DecidableEq, Repr

/-- A decoded `rpccapnp.Call`.  `Target()` and `Params()` are fallible
accessors, hence the `Except` fields. -/
structure CallMsg where
  questionId : Nat
  interfaceId : Nat
  methodId : Nat
  target : Except RpcError MessageTarget
  params : Except RpcError Payload
deriving DecidableEq, Repr

/-- The context union of a `rpccapnp.Disembargo`.  `otherCtx` covers the
out-of-spec variants `accept` and `provide`. -/
inductive DisembargoContext where
  | senderLoopback (id : Nat)
  | receiverLoopback (id : Nat)
  | otherCtx
deriving DecidableEq, Repr

/-- A decoded `rpccapnp.Disembargo`: the result of decoding its target
(`Target()` can fail) and its context variant. -/
structure DisembargoMsg where
  target : Except RpcError MessageTarget
  context : DisembargoContext
deriving DecidableEq, Repr

/-- An inbound `rpccapnp.Message`, dispatched on by `Message.Which()`.
Each payload-bearing variant carries the result of its decoding accessor
(`m.Abort()` via `copyAbort`, `m.Return()`, `m.Finish()`,
`m.Bootstrap().QuestionId()`, `m.Call()`, `m.Release()`,
`m.Disembargo()`).  `otherMsg` covers the unhandled variants (`resolve`,
`provide`, `accept`, `join`, the obsolete ones). -/
inductive Message where
  | unimplementedMsg
  | abortMsg (d : Except RpcError Exc)
  | returnMsg (d : Except RpcError ReturnMsg)
  | finishMsg (d : Except RpcError FinishMsg)
  | bootstrapMsg (d : Except RpcError Nat)
  | callMsg (d : Except RpcError CallMsg)
  | releaseMsg (d : Except RpcError ReleaseMsg)
  | disembargoMsg (d : Except RpcError DisembargoMsg)
  | otherMsg (which : Nat)
deriving DecidableEq, Repr

/-- An outbound message enqueued by the dispatcher:
`newUnimplementedMessage`, `newAbortMessage`, `newFinishMessage`,
`newReturnMessage` + `setReturnException`, `newDisembargoMessage` with
its target set, and the `bootstrap` message built by `Bootstrap`. -/
inductive OutMessage where
  | unimplementedEcho (m : Message)
  | abortOut (e : RpcError)
  | finishOut (qid : Nat) (releaseResultCaps : Bool)
  | returnExceptionOut (aid : Nat) (e : RpcError)
  | disembargoOut (ctx : DisembargoContext) (target : MessageTarget)
  | bootstrapOut (qid : Nat)
deriving DecidableEq, Repr

/-- The resolution state of a question (`questionInProgress`,
`questionResolved`, `questionCanceled`). -/
inductive QuestionState where
  | inProgress
  | resolved
  | canceled
deriving DecidableEq, Repr

/-- Observable effects of one dispatcher step: messages enqueued on the
send channel, manager shutdown, log output, question and answer
resolutions, export releases, routed or queued pipelined calls, embargo
completions, answer-context cancellations, transport closure. -/
inductive Effect where
  | send (m : OutMessage)
  | shutdown (e : RpcError)
  | logged
  | fulfillQuestion (id : Nat) (p : Ptr) (caps : List Client)
  | rejectQuestion (id : Nat) (st : QuestionState) (e : RpcError)
  | fulfillAnswer (id : Nat) (p : Ptr) (caps : List Client)
  | rejectAnswer (id : Nat) (e : RpcError)
  | releaseExportEff (id : Nat) (count : Nat)
  | routedCall (target : Client)
  | queuedPipelineCall (onAnswer : Nat)
  | disembargoed (id : Nat)
  | canceledAnswer (id : Nat)
  | closeTransport
deriving DecidableEq, Repr

/-- An outstanding outbound call (`question`).  Modelled from the spec:
`question.go` is outside the dispatcher file; the spec describes a
question as id, optional method (absent for bootstrap), param-cap export
ids, a resolution state, and a started flag (`start()`). -/
structure Question where
  id : Nat
  method : Option Method
  paramCaps : List Nat
  state : QuestionState
  started : Bool
deriving DecidableEq, Repr

/-- An inbound call being answered (`answer`).  Modelled from the spec:
`answer.go` is outside the dispatcher file; the spec describes an answer
as id, a resolution slot, a queue of pipelined calls keyed by transform,
a queue of pending disembargoes, and result-cap export ids. -/
structure Answer where
  id : Nat
  resolution : Option (Except RpcError Ptr)
  queuedCalls : List (List Nat × Nat)
  queuedDisembargoes : List Nat
  resultCaps : List Nat
deriving DecidableEq, Repr

/-- An export-table entry: local capability, peer-held reference count. -/
structure ExportEntry where
  id : Nat
  client : Client
  refCount : Nat
deriving DecidableEq, Repr

/-- An import-table entry: local reference count for a peer-hosted cap. -/
structure ImportEntry where
  id : Nat
  refCount : Nat
deriving DecidableEq, Repr

/-- The manager.  Modelled from the spec: a terminal error set at most
once by `shutdown`, observable after the `finish` signal (`done`). -/
structure Manager where
  done : Bool
  terminalErr : RpcError
deriving DecidableEq, Repr

/-- The mutable state of a `Conn` guarded by its mutex, together with the
manager and the bootstrap factory.  `mainFunc` is modelled by the result
the factory would produce (`none` when no `MainInterface`/`BootstrapFunc`
option was given). -/
structure ConnState where
  manager : Manager
  questions : List Question
  questionIdNext : Nat
  questionIdFree : List Nat
  answers : List Answer
  exports : List ExportEntry
  exportIdNext : Nat
  imports : List ImportEntry
  mainFunc : Option (Except RpcError Client)
deriving DecidableEq, Repr

/-- An outbound capability descriptor, as classified by
`descriptorForClient` when building a payload's cap table. -/
inductive OutCapDescriptor where
  | odNone
  | odReceiverHosted (importId : Nat)
  | odReceiverAnswer (qid : Nat) (transform : List Nat)
  | odSenderHosted (exportId : Nat)
deriving DecidableEq, Repr

/-! ## Table operations

The question, answer, import and export tables live outside `rpc.go`;
their operations are modelled from the spec (sections 3, 4.3 and 4.4). -/

/-- Modelled from the spec: `manager.shutdown(err)` sets the terminal
error at most once; the first caller wins and subsequent calls are
no-ops (§4.1). -/
def managerShutdown (s : ConnState) (e : RpcError) : ConnState :=
  if s.manager.done then s else { s with manager := { done := true, terminalErr := e } }

/-- `c.abort(err)` (`rpc.go`): enqueue an abort message carrying the
error, then shut the manager down with it. -/
def abortConn (s : ConnState) (e : RpcError) : ConnState × List Effect :=
  (managerShutdown s e, [.send (.abortOut e), .shutdown e])

/-- Modelled from the spec: `pop(id)` removes and returns the question,
returning the id to the generator's free pool (§3, §4.4). -/
def popQuestion (s : ConnState) (id : Nat) : Option Question × ConnState :=
  match s.questions.find? (fun q => q.id == id) with
  | none => (none, s)
  | some q =>
    (some q,
      { s with
          questions := s.questions.filter (fun q2 => q2.id != id)
          questionIdFree := id :: s.questionIdFree })

/-- Modelled from the spec: `new(ctx, method)` allocates a question with
a fresh id, preferring reuse of released ids (§3, §4.4). -/
def newQuestion (s : ConnState) (method : Option Method) : Question × ConnState :=
  match s.questionIdFree with
  | id :: rest =>
    let q : Question :=
      { id := id, method := method, paramCaps := [], state := .inProgress, started := false }
    (q, { s with questions := s.questions ++ [q], questionIdFree := rest })
  | [] =>
    let q : Question :=
      { id := s.questionIdNext, method := method, paramCaps := [],
        state := .inProgress, started := false }
    (q, { s with questions := s.questions ++ [q], questionIdNext := s.questionIdNext + 1 })

/-- Modelled from the spec: `q.start()` records that the send of the
question's message has been enqueued (§4.4). -/
def startQuestion (s : ConnState) (id : Nat) : ConnState :=
  { s with
      questions := s.questions.map (fun q => if q.id == id then { q with started := true } else q) }

/-- `c.answers[id]`: look up an answer without removing it. -/
def findAnswer (s : ConnState) (id : Nat) : Option Answer :=
  s.answers.find? (fun a => a.id == id)

/-- Modelled from the spec: insert a fresh answer at `id`; `none` when
the id is already in use (§4.3 bootstrap/call). -/
def insertAnswer (s : ConnState) (id : Nat) : Option (Answer × ConnState) :=
  match s.answers.find? (fun a => a.id == id) with
  | some _ => none
  | none =>
    let a : Answer :=
      { id := id, resolution := none, queuedCalls := [], queuedDisembargoes := [],
        resultCaps := [] }
    some (a, { s with answers := s.answers ++ [a] })

/-- Modelled from the spec: remove and return the answer for `id`
(§4.3 finish). -/
def popAnswer (s : ConnState) (id : Nat) : Option Answer × ConnState :=
  match s.answers.find? (fun a => a.id == id) with
  | none => (none, s)
  | some a => (some a, { s with answers := s.answers.filter (fun a2 => a2.id != id) })

/-- Modelled from the spec: record an answer's resolution in the table
(`a.fulfill` / `a.reject` update the resolution slot, §3). -/
def resolveAnswerInState (s : ConnState) (id : Nat) (r : Except RpcError Ptr) : ConnState :=
  { s with
      answers := s.answers.map (fun a => if a.id == id then { a with resolution := some r } else a) }

/-- Modelled from the spec: enqueue a pipelined call (keyed by its
transform, targeting the new answer `resultId`) on a pending answer
(§4.3.1). -/
def queueCallOnAnswer (s : ConnState) (aid : Nat) (transform : List Nat) (resultId : Nat) :
    ConnState :=
  { s with
      answers := s.answers.map (fun a =>
        if a.id == aid then { a with queuedCalls := a.queuedCalls ++ [(transform, resultId)] }
        else a) }

/-- Modelled from the spec: enqueue a pending disembargo behind the
queued calls of a still-pending answer (§4.5). -/
def queueDisembargoOnAnswer (s : ConnState) (aid : Nat) (embargoId : Nat) : ConnState :=
  { s with
      answers := s.answers.map (fun a =>
        if a.id == aid then { a with queuedDisembargoes := a.queuedDisembargoes ++ [embargoId] }
        else a) }

/-- `c.findExport(id)`: look up an export-table entry. -/
def findExport (s : ConnState) (id : Nat) : Option ExportEntry :=
  s.exports.find? (fun e => e.id == id)

/-- Modelled from the spec: decrement an export's refcount by `n`,
removing the entry when it reaches zero; unknown ids are ignored
(§4.3 release). -/
def releaseExport (s : ConnState) (id : Nat) (n : Nat) : ConnState :=
  match s.exports.find? (fun e => e.id == id) with
  | none => s
  | some e =>
    if e.refCount ≤ n then
      { s with exports := s.exports.filter (fun e2 => e2.id != id) }
    else
      { s with
          exports := s.exports.map (fun e2 =>
            if e2.id == id then { e2 with refCount := e2.refCount - n } else e2) }

/-- Release each export in `ids` by one reference. -/
def releaseExportList (s : ConnState) (ids : List Nat) : ConnState :=
  ids.foldl (fun st i => releaseExport st i 1) s

/-- The effects recorded for `releaseExportList`. -/
def releaseEffects (ids : List Nat) : List Effect :=
  ids.map (fun i => Effect.releaseExportEff i 1)

/-- Modelled from the spec: `c.addImport(id)` finds or creates the entry
in the import table, increments its refcount, and returns its proxy
client (§4.3.2). -/
def addImport (s : ConnState) (id : Nat) : ConnState × Client :=
  match s.imports.find? (fun i => i.id == id) with
  | some _ =>
    ({ s with
        imports := s.imports.map (fun i =>
          if i.id == id then { i with refCount := i.refCount + 1 } else i) },
      .importClient id)
  | none =>
    ({ s with imports := s.imports ++ [{ id := id, refCount := 1 }] }, .importClient id)

/-! ## Pointer transforms and resolution clients -/

/-- Modelled from the spec: a transform selects sub-structures of a
result by pointer-field indices; the empty transform selects the root
(§4.3.1).  Pointers are abstracted to a flat model, so any non-empty
transform reaches a null pointer. -/
def transformPtr (p : Ptr) : List Nat → Ptr
  | [] => p
  | _ :: _ => .null

/-- `clientFromResolution` (`rpc.go`): extract a client from a resolved
question or answer by applying a transform; rejections and non-interface
pointers give error clients. -/
def clientFromResolution (transform : List Nat) (res : Except RpcError Ptr) : Client :=
  match res with
  | .error e => .errorClient e
  | .ok obj =>
    match transformPtr obj transform with
    | .iface c => if c = .nullc then .errorClient .nullClient else c
    | _ => .errorClient .nullClient

/-- `promisedAnswerOpsToTransform` (`rpc.go`): keep the
`getPointerField` entries, drop the `noop` entries. -/
def promisedAnswerOpsToTransform : List TransformOp → List Nat
  | [] => []
  | .getPointerField f :: rest => f :: promisedAnswerOpsToTransform rest
  | .noop :: rest => promisedAnswerOpsToTransform rest

/-! ## Cap-table population (inbound) and construction (outbound) -/

/-- One step of `populateMessageCapTable` (`rpc.go`): resolve a single
descriptor into a client, possibly mutating the import table. -/
def resolveCapDescriptor (s : ConnState) (d : CapDescriptor) :
    ConnState × Except RpcError Client :=
  match d with
  | .cdNone => (s, .ok .nullc)
  | .senderHosted id =>
    match addImport s id with
    | (s1, c) => (s1, .ok c)
  | .senderPromise id =>
    match addImport s id with
    | (s1, c) => (s1, .ok c)
  | .receiverHosted id =>
    match findExport s id with
    | none => (s, .error (.unknownExportId id))
    | some e => (s, .ok e.client)
  | .receiverAnswer dr =>
    match dr with
    | .error e => (s, .error e)
    | .ok recvAns =>
      match findAnswer s recvAns.questionId with
      | none => (s, .error (.unknownAnswerId recvAns.questionId))
      | some a =>
        match recvAns.transform with
        | .error e => (s, .error e)
        | .ok ops => (s, .ok (.answerPipeline a.id (promisedAnswerOpsToTransform ops)))
  | .cdOther => (s, .error .unimplemented)

/-- The descriptor loop of `populateMessageCapTable` (`rpc.go`): resolve
descriptors left to right, stopping at the first failure (import-table
mutations made before the failure persist, as in the source). -/
def populateCapDescs (s : ConnState) : List CapDescriptor → ConnState × Except RpcError (List Client)
  | [] => (s, .ok [])
  | d :: rest =>
    match resolveCapDescriptor s d with
    | (s1, .error e) => (s1, .error e)
    | (s1, .ok c) =>
      match populateCapDescs s1 rest with
      | (s2, .error e) => (s2, .error e)
      | (s2, .ok cs) => (s2, .ok (c :: cs))

/-- `populateMessageCapTable` (`rpc.go`): decode the payload's cap table
and convert the descriptors into clients. -/
def populateMessageCapTable (s : ConnState) (p : Payload) :
    ConnState × Except RpcError (List Client) :=
  match p.capTable with
  | .error e => (s, .error e)
  | .ok descs => populateCapDescs s descs

/-- Modelled from the spec: `descriptorForClient` classifies an outbound
client into a descriptor — an import of this connection becomes
`receiverHosted`, a question pipeline becomes `receiverAnswer`, anything
else allocates or reuses an export entry and becomes `senderHosted`
(§4.3.3). -/
def descriptorForClient (s : ConnState) (cl : Client) : ConnState × OutCapDescriptor :=
  match cl with
  | .importClient id => (s, .odReceiverHosted id)
  | .questionPipeline qid => (s, .odReceiverAnswer qid [])
  | c =>
    match s.exports.find? (fun e => e.client == c) with
    | some e =>
      ({ s with
          exports := s.exports.map (fun e2 =>
            if e2.id == e.id then { e2 with refCount := e2.refCount + 1 } else e2) },
        .odSenderHosted e.id)
    | none =>
      ({ s with
          exports := s.exports ++ [{ id := s.exportIdNext, client := c, refCount := 1 }]
          exportIdNext := s.exportIdNext + 1 },
        .odSenderHosted s.exportIdNext)

/-- The per-client loop of `makeCapTable` (`rpc.go`): a nil client gives
a `none` descriptor, anything else goes through `descriptorForClient`. -/
def makeCapDescs (s : ConnState) : List Client → ConnState × List OutCapDescriptor
  | [] => (s, [])
  | .nullc :: rest =>
    match makeCapDescs s rest with
    | (s1, ds) => (s1, .odNone :: ds)
  | c :: rest =>
    match descriptorForClient s c with
    | (s1, d) =>
      match makeCapDescs s1 rest with
      | (s2, ds) => (s2, d :: ds)

/-- `makeCapTable` (`rpc.go`): convert the clients of an outgoing
message's cap table into descriptors.  `allocFails` is the outcome of
the `NewCapDescriptor_List` allocation; when it fails the source returns
an empty descriptor list together with a nil error. -/
def makeCapTable (s : ConnState) (allocFails : Bool) (msgtab : List Client) :
    ConnState × List OutCapDescriptor × Option RpcError :=
  if allocFails then (s, [], none)
  else
    match makeCapDescs s msgtab with
    | (s1, ds) => (s1, ds, none)

/-! ## The message handlers (`rpc.go`) -/

/-- Error wrapping for a peer-returned exception (`rpc.go`,
`handleReturnMessage` exception arm): method calls get a
`capnp.MethodError`, bootstrap questions a `bootstrapError`. -/
def wrapReturnError (method : Option Method) (e : RpcError) : RpcError :=
  match method with
  | some me => .methodErr me e
  | none => .bootstrapErr e

/-- `handleReturnMessage` (`rpc.go`): pop the question, honour
`releaseParamCaps`, drop the return if the question was canceled,
otherwise dispatch on the return variant.  Returns the new state, the
effects, and the error handed back to `handleMessage`. -/
def handleReturnMessage (s : ConnState) (m : Message) (ret : ReturnMsg) :
    ConnState × List Effect × Option RpcError :=
  match popQuestion s ret.answerId with
  | (none, s1) => (s1, [], some (.unknownQuestion ret.answerId))
  | (some q, s1) =>
    let s2 := if ret.releaseParamCaps then releaseExportList s1 q.paramCaps else s1
    let relEffs := if ret.releaseParamCaps then releaseEffects q.paramCaps else []
    if q.state = .canceled then
      -- We already sent the finish message.
      (s2, relEffs, none)
    else
      match ret.variant with
      | .results dr =>
        match dr with
        | .error e => (s2, relEffs, some e)
        | .ok results =>
          match populateMessageCapTable s2 results with
          | (s3, .error .unimplemented) =>
            (s3, relEffs ++ [.send (.unimplementedEcho m)], some .unimplemented)
          | (s3, .error e) =>
            match abortConn s3 e with
            | (s4, aeffs) => (s4, relEffs ++ aeffs, some e)
          | (s3, .ok caps) =>
            match results.content with
            | .error e => (s3, relEffs, some e)
            | .ok content =>
              (s3, relEffs ++ [.fulfillQuestion q.id content caps,
                               .send (.finishOut q.id false)], none)
      | .exception dx =>
        match dx with
        | .error e => (s2, relEffs, some e)
        | .ok exc =>
          (s2, relEffs ++ [.rejectQuestion q.id .resolved
                             (wrapReturnError q.method (.exceptionErr exc)),
                           .send (.finishOut q.id true)], none)
      | .canceled =>
        (s2, relEffs ++ [.logged,
                         .rejectQuestion q.id .resolved
                           (.receiverCanceled ret.answerId q.method)], none)
      | .otherRet =>
        (s2, relEffs ++ [.send (.unimplementedEcho m)], some .unimplemented)

/-- `handleBootstrapMessage` (`rpc.go`): insert an answer at the
question id; on reuse reply with a `question ID reused` return
exception; with no bootstrap factory (or a failing one) reject the
answer with `no main interface`; otherwise wrap the factory's capability
in a single-capability interface pointer and fulfill. -/
def handleBootstrapMessage (s : ConnState) (id : Nat) :
    ConnState × List Effect × Option RpcError :=
  match insertAnswer s id with
  | none =>
    (s, [.send (.returnExceptionOut id .questionReused)], none)
  | some (a, s1) =>
    match s1.mainFunc with
    | none =>
      (resolveAnswerInState s1 a.id (.error .noMainInterface),
        [.rejectAnswer a.id .noMainInterface], none)
    | some (.error _) =>
      (resolveAnswerInState s1 a.id (.error .noMainInterface),
        [.rejectAnswer a.id .noMainInterface], none)
    | some (.ok main) =>
      (resolveAnswerInState s1 a.id (.ok (.iface main)),
        [.fulfillAnswer a.id (.iface main) [main]], none)

/-- A call target is valid when it is `importedCap` or `promisedAnswer`
(`rpc.go`, `handleCallMessage` which-check). -/
def validCallTarget : MessageTarget → Bool
  | .importedCap _ => true
  | .promisedAnswer _ => true
  | .otherTarget => false

/-- `routeCallMessage` (`rpc.go`): route an inbound call to an export or
to a promised answer; `badTarget` for a missing export, a self-referent
promised answer (grandfather paradox), or a missing answer; calls on a
pending answer are queued on it. -/
def routeCallMessage (s : ConnState) (result : Answer) (mt : MessageTarget) :
    ConnState × List Effect × Option RpcError :=
  match mt with
  | .importedCap id =>
    match findExport s id with
    | none => (s, [], some .badTarget)
    | some e => (s, [.routedCall e.client], none)
  | .promisedAnswer dr =>
    match dr with
    | .error e => (s, [], some e)
    | .ok mpromise =>
      if mpromise.questionId == result.id then
        -- Grandfather paradox.
        (s, [], some .badTarget)
      else
        match findAnswer s mpromise.questionId with
        | none => (s, [], some .badTarget)
        | some pa =>
          match mpromise.transform with
          | .error e => (s, [], some e)
          | .ok mtrans =>
            let transform := promisedAnswerOpsToTransform mtrans
            match pa.resolution with
            | some res =>
              (s, [.routedCall (clientFromResolution transform res)], none)
            | none =>
              (queueCallOnAnswer s pa.id transform result.id,
                [.queuedPipelineCall pa.id], none)
  | .otherTarget =>
    -- Unreachable: handleCallMessage only routes valid targets.
    (s, [], none)

/-- `handleCallMessage` (`rpc.go`): validate the target kind, populate
the parameter cap table (an `unimplemented` descriptor echoes the
message, any other failure aborts the connection), insert the answer
(reuse aborts), then route; a routing error rejects the answer. -/
def handleCallMessage (s : ConnState) (m : Message) (mcall : CallMsg) :
    ConnState × List Effect × Option RpcError :=
  match mcall.target with
  | .error e => (s, [], some e)
  | .ok mt =>
    if validCallTarget mt = false then
      (s, [.send (.unimplementedEcho m)], none)
    else
      match mcall.params with
      | .error e => (s, [], some e)
      | .ok mparams =>
        match populateMessageCapTable s mparams with
        | (s1, .error .unimplemented) =>
          (s1, [.send (.unimplementedEcho m)], none)
        | (s1, .error e) =>
          match abortConn s1 e with
          | (s2, aeffs) => (s2, aeffs, some e)
        | (s1, .ok _caps) =>
          match insertAnswer s1 mcall.questionId with
          | none =>
            match abortConn s1 .questionReused with
            | (s2, aeffs) => (s2, aeffs, some .questionReused)
          | some (a, s2) =>
            match mparams.content with
            | .error e => (s2, [], some e)
            | .ok _paramContent =>
              match routeCallMessage s2 a mt with
              | (s3, effs, some err) =>
                (resolveAnswerInState s3 a.id (.error err),
                  effs ++ [.rejectAnswer a.id err], none)
              | (s3, effs, none) => (s3, effs, none)

/-- `handleDisembargoMessage` (`rpc.go`): decode the target; for
`senderLoopback` the target must be a promised answer on a known answer
(queue the disembargo when pending, else echo a `receiverLoopback`
reply); `receiverLoopback` completes the local embargo; any other
context variant is answered with an unimplemented echo. -/
def handleDisembargoMessage (s : ConnState) (m : Message) (d : DisembargoMsg) :
    ConnState × List Effect × Option RpcError :=
  match d.target with
  | .error e => (s, [], some e)
  | .ok dtarget =>
    match d.context with
    | .senderLoopback id =>
      match dtarget with
      | .promisedAnswer dpr =>
        match dpr with
        | .error e => (s, [], some e)
        | .ok dpa =>
          match findAnswer s dpa.questionId with
          | none => (s, [], some .disembargoMissingAnswer)
          | some a =>
            match dpa.transform with
            | .error e => (s, [], some e)
            | .ok _dtrans =>
              match a.resolution with
              | none => (queueDisembargoOnAnswer s a.id id, [], none)
              | some _ =>
                -- Nothing to embargo; everything has been delivered.
                (s, [.send (.disembargoOut (.receiverLoopback id) dtarget)], none)
      | .importedCap _ => (s, [], some .disembargoNonImport)
      | .otherTarget => (s, [], some .disembargoNonImport)
    | .receiverLoopback id =>
      (s, [.disembargoed id], none)
    | .otherCtx =>
      (s, [.send (.unimplementedEcho m)], none)

/-- `handleMessage` (`rpc.go`): the dispatcher switch.  Decode failures
are logged and the message skipped, except for disembargoes where any
failure aborts the connection; handler errors are logged (return, call,
bootstrap) or abort (disembargo). -/
def handleMessage (s : ConnState) (m : Message) : ConnState × List Effect :=
  match m with
  | .unimplementedMsg => (s, [])
  | .abortMsg d =>
    match d with
    | .error _ =>
      -- copyAbort failed: log the decode error, keep going, and shut
      -- down with the partially decoded abort value.
      (managerShutdown s (.abortExc { reason := "" }),
        [.logged, .logged, .shutdown (.abortExc { reason := "" })])
    | .ok x =>
      (managerShutdown s (.abortExc x), [.logged, .shutdown (.abortExc x)])
  | .returnMsg d =>
    match d with
    | .error _ => (s, [.logged])
    | .ok ret =>
      match handleReturnMessage s m ret with
      | (s1, effs, some _) => (s1, effs ++ [.logged])
      | (s1, effs, none) => (s1, effs)
  | .finishMsg d =>
    match d with
    | .error _ => (s, [.logged])
    | .ok mfin =>
      match popAnswer s mfin.questionId with
      | (none, s1) =>
        -- Modelled from the spec: behaviour for an unknown answer id is
        -- left unspecified by the source (a nil dereference); the spec
        -- prescribes log-and-ignore (§9).
        (s1, [.logged])
      | (some a, s1) =>
        let s2 := if mfin.releaseResultCaps then releaseExportList s1 a.resultCaps else s1
        let relEffs := if mfin.releaseResultCaps then releaseEffects a.resultCaps else []
        (s2, .canceledAnswer a.id :: relEffs)
  | .bootstrapMsg d =>
    match d with
    | .error _ => (s, [.logged])
    | .ok id =>
      match handleBootstrapMessage s id with
      | (s1, effs, some _) => (s1, effs ++ [.logged])
      | (s1, effs, none) => (s1, effs)
  | .callMsg d =>
    match d with
    | .error _ => (s, [.logged])
    | .ok mcall =>
      match handleCallMessage s m mcall with
      | (s1, effs, some _) => (s1, effs ++ [.logged])
      | (s1, effs, none) => (s1, effs)
  | .releaseMsg d =>
    match d with
    | .error _ => (s, [.logged])
    | .ok rel =>
      (releaseExport s rel.id rel.referenceCount,
        [.releaseExportEff rel.id rel.referenceCount])
  | .disembargoMsg d =>
    match d with
    | .error e =>
      -- Any failure in a disembargo is a protocol violation.
      abortConn s e
    | .ok dmsg =>
      match handleDisembargoMessage s m dmsg with
      | (s1, effs, some e) =>
        match abortConn s1 e with
        | (s2, aeffs) => (s2, effs ++ aeffs)
      | (s1, effs, none) => (s1, effs)
  | .otherMsg _ =>
    (s, [.logged, .send (.unimplementedEcho m)])

/-! ## `Bootstrap` and `Close` -/

/-- Which branch of `Bootstrap`'s first select fires: the mutex, the
caller's context, or the manager's finish signal. -/
inductive LockOutcome where
  | locked
  | lockCtxDone
  | lockShutdown
deriving DecidableEq, Repr

/-- Which branch of `Bootstrap`'s second select fires: the enqueue on
the send channel, the caller's context, or the manager's finish
signal. -/
inductive SendOutcome where
  | sent
  | sendCtxDone
  | sendShutdown
deriving DecidableEq, Repr

/-- `Bootstrap` (`rpc.go`): acquire the mutex with a select against the
context and the manager; allocate a question without a method; enqueue
the bootstrap message with a second select, popping the question again
when the enqueue loses.  The select outcomes are the nondeterminism of
the two selects; `ctxErr` is the context's error when canceled. -/
def Bootstrap (s : ConnState) (lockO : LockOutcome) (sendO : SendOutcome) (ctxErr : RpcError) :
    ConnState × Client × List Effect :=
  match lockO with
  | .lockCtxDone => (s, .errorClient ctxErr, [])
  | .lockShutdown => (s, .errorClient s.manager.terminalErr, [])
  | .locked =>
    match newQuestion s none with
    | (q, s1) =>
      match sendO with
      | .sent =>
        (startQuestion s1 q.id, .questionPipeline q.id, [.send (.bootstrapOut q.id)])
      | .sendCtxDone => ((popQuestion s1 q.id).2, .errorClient ctxErr, [])
      | .sendShutdown => ((popQuestion s1 q.id).2, .errorClient s1.manager.terminalErr, [])

/-- `Close` (`rpc.go`): shut the manager down with `ErrConnClosed`; when
the shutdown did not win (the connection was already shut down) return
`ErrConnClosed` with no further action; otherwise send a best-effort
abort over the transport and close it.  `werr` and `cerr` are the
transport's send and close outcomes. -/
def Close (s : ConnState) (werr cerr : Option RpcError) :
    ConnState × Option RpcError × List Effect :=
  if s.manager.done then
    (s, some .connClosed, [])
  else
    let s1 := managerShutdown s .connClosed
    let res : Option RpcError :=
      match werr with
      | some e => some e
      | none => cerr
    (s1, res, [.shutdown .connClosed, .send (.abortOut .shutdownErr), .closeTransport])

/-! ## Helper lemmas -/

theorem releaseExport_questions (s : ConnState) (id n : Nat) :
    (releaseExport s id n).questions = s.questions := by
  unfold releaseExport
  cases s.exports.find? (fun e => e.id == id) with
  | none => rfl
  | some e =>
    by_cases h : e.refCount ≤ n <;> simp [h]

theorem releaseExport_manager (s : ConnState) (id n : Nat) :
    (releaseExport s id n).manager = s.manager := by
  unfold releaseExport
  cases s.exports.find? (fun e => e.id == id) with
  | none => rfl
  | some e =>
    by_cases h : e.refCount ≤ n <;> simp [h]

theorem releaseExportList_questions (s : ConnState) (ids : List Nat) :
    (releaseExportList s ids).questions = s.questions := by
  induction ids generalizing s with
  | nil => rfl
  | cons i rest ih =>
    show (releaseExportList (releaseExport s i 1) rest).questions = s.questions
    rw [ih, releaseExport_questions]

theorem releaseExportList_manager (s : ConnState) (ids : List Nat) :
    (releaseExportList s ids).manager = s.manager := by
  induction ids generalizing s with
  | nil => rfl
  | cons i rest ih =>
    show (releaseExportList (releaseExport s i 1) rest).manager = s.manager
    rw [ih, releaseExport_manager]

theorem newQuestion_manager (s : ConnState) (m : Option Method) :
    ((newQuestion s m).2).manager = s.manager := by
  unfold newQuestion
  cases s.questionIdFree <;> rfl

theorem addImport_manager (s : ConnState) (id : Nat) :
    (addImport s id).1.manager = s.manager := by
  unfold addImport
  cases s.imports.find? (fun i => i.id == id) <;> rfl

theorem resolveCapDescriptor_manager (s : ConnState) (d : CapDescriptor) :
    (resolveCapDescriptor s d).1.manager = s.manager := by
  cases d with
  | cdNone => rfl
  | senderHosted id =>
    have h := addImport_manager s id
    simp only [resolveCapDescriptor]
    cases hai : addImport s id with
    | mk s1 c => rw [hai] at h; simpa using h
  | senderPromise id =>
    have h := addImport_manager s id
    simp only [resolveCapDescriptor]
    cases hai : addImport s id with
    | mk s1 c => rw [hai] at h; simpa using h
  | receiverHosted id =>
    simp only [resolveCapDescriptor]
    cases findExport s id <;> rfl
  | receiverAnswer dr =>
    simp only [resolveCapDescriptor]
    cases dr with
    | error e => rfl
    | ok r =>
      cases hfa : findAnswer s r.questionId with
      | none => simp [hfa]
      | some a =>
        cases htr : r.transform with
        | error e => simp [hfa, htr]
        | ok ops => simp [hfa, htr]
  | cdOther => rfl

theorem populateCapDescs_manager (descs : List CapDescriptor) (s : ConnState) :
    (populateCapDescs s descs).1.manager = s.manager := by
  induction descs generalizing s with
  | nil => rfl
  | cons d rest ih =>
    unfold populateCapDescs
    cases hrd : resolveCapDescriptor s d with
    | mk s1 r =>
      have hm1 : s1.manager = s.manager := by
        have := resolveCapDescriptor_manager s d
        rw [hrd] at this
        simpa using this
      cases r with
      | error e => simpa using hm1
      | ok c =>
        cases hrest : populateCapDescs s1 rest with
        | mk s2 r2 =>
          have hm2 : s2.manager = s1.manager := by
            have := ih s1
            rw [hrest] at this
            simpa using this
          simp only [hrest]
          cases r2 <;> simpa using hm2.trans hm1

theorem populateMessageCapTable_manager (s : ConnState) (p : Payload) :
    (populateMessageCapTable s p).1.manager = s.manager := by
  unfold populateMessageCapTable
  cases p.capTable with
  | error e => rfl
  | ok descs => exact populateCapDescs_manager descs s

theorem insertAnswer_manager (s : ConnState) (id : Nat) (a : Answer) (s' : ConnState)
    (h : insertAnswer s id = some (a, s')) : s'.manager = s.manager := by
  unfold insertAnswer at h
  cases hf : s.answers.find? (fun a2 => a2.id == id) with
  | some _ => rw [hf] at h; exact absurd h (by simp)
  | none =>
    rw [hf] at h
    simp only [Option.some.injEq, Prod.mk.injEq] at h
    rw [← h.2]

/-- Every error arm of `routeCallMessage` leaves the state unchanged and
produces no effects. -/
theorem routeCallMessage_error_inv (s : ConnState) (a : Answer) (mt : MessageTarget)
    (s' : ConnState) (effs : List Effect) (e : RpcError)
    (h : routeCallMessage s a mt = (s', effs, some e)) : s' = s ∧ effs = [] := by
  cases mt with
  | importedCap id =>
    simp only [routeCallMessage] at h
    cases hf : findExport s id with
    | none =>
      rw [hf] at h
      simp only [Prod.mk.injEq] at h
      exact ⟨h.1.symm, h.2.1.symm⟩
    | some ex => rw [hf] at h; simp at h
  | promisedAnswer dr =>
    cases dr with
    | error e2 =>
      simp only [routeCallMessage, Prod.mk.injEq] at h
      exact ⟨h.1.symm, h.2.1.symm⟩
    | ok mp =>
      simp only [routeCallMessage] at h
      by_cases hid : (mp.questionId == a.id) = true
      · rw [if_pos hid] at h
        simp only [Prod.mk.injEq] at h
        exact ⟨h.1.symm, h.2.1.symm⟩
      · rw [if_neg hid] at h
        cases hfa : findAnswer s mp.questionId with
        | none =>
          rw [hfa] at h
          simp only [Prod.mk.injEq] at h
          exact ⟨h.1.symm, h.2.1.symm⟩
        | some pa =>
          rw [hfa] at h
          cases htr : mp.transform with
          | error e3 =>
            rw [htr] at h
            simp only [Prod.mk.injEq] at h
            exact ⟨h.1.symm, h.2.1.symm⟩
          | ok ops =>
            rw [htr] at h
            cases hres : pa.resolution with
            | some res => simp [hres] at h
            | none => simp [hres] at h
  | otherTarget => simp [routeCallMessage] at h

theorem insertAnswer_id (s : ConnState) (id : Nat) (a : Answer) (s' : ConnState)
    (h : insertAnswer s id = some (a, s')) : a.id = id := by
  unfold insertAnswer at h
  cases hf : s.answers.find? (fun a2 => a2.id == id) with
  | some _ => rw [hf] at h; exact absurd h (by simp)
  | none =>
    rw [hf] at h
    simp only [Option.some.injEq, Prod.mk.injEq] at h
    rw [← h.1]

theorem resolveAnswerInState_queuedCalls (s : ConnState) (id : Nat) (r : Except RpcError Ptr) :
    (resolveAnswerInState s id r).answers.map (fun a2 => a2.queuedCalls) =
      s.answers.map (fun a2 => a2.queuedCalls) := by
  unfold resolveAnswerInState
  induction s.answers with
  | nil => rfl
  | cons a rest ih =>
    simp only [List.map_cons, List.cons.injEq]
    refine ⟨?_, ih⟩
    by_cases h : (a.id == id) = true <;> simp [h]

theorem newQuestion_questions (s : ConnState) (m : Option Method) :
    ((newQuestion s m).2).questions = s.questions ++ [(newQuestion s m).1] := by
  unfold newQuestion
  cases s.questionIdFree <;> rfl

/-- Popping the question that `newQuestion` just allocated restores the
question table, provided the allocated id was fresh. -/
theorem pop_new_question (s : ConnState) (m : Option Method)
    (hfresh : ∀ q2 ∈ s.questions, q2.id ≠ (newQuestion s m).1.id) :
    ((popQuestion ((newQuestion s m).2) ((newQuestion s m).1.id)).2).questions = s.questions := by
  have hq := newQuestion_questions s m
  have hfind : ((newQuestion s m).2).questions.find?
      (fun q2 => q2.id == (newQuestion s m).1.id) = some (newQuestion s m).1 := by
    rw [hq, List.find?_append]
    have h1 : s.questions.find? (fun q2 => q2.id == (newQuestion s m).1.id) = none := by
      rw [List.find?_eq_none]
      intro x hx
      simpa using hfresh x hx
    rw [h1]
    simp [List.find?]
  unfold popQuestion
  rw [hfind]
  simp only [hq, List.filter_append]
  have h2 : s.questions.filter (fun q2 => q2.id != (newQuestion s m).1.id) = s.questions := by
    rw [List.filter_eq_self]
    intro x hx
    simpa using hfresh x hx
  have h3 : [(newQuestion s m).1].filter
      (fun q2 => q2.id != (newQuestion s m).1.id) = [] := by simp
  rw [h2, h3, List.append_nil]

/-! ## Concrete fixtures for the counterexamples and witnesses -/

/-- A live connection holding one canceled question (id 7) and one
export (id 5, refcount 1). -/
def exState : ConnState :=
  { manager := { done := false, terminalErr := .connClosed }
    questions := [{ id := 7, method := none, paramCaps := [], state := .canceled, started := true }]
    questionIdNext := 8
    questionIdFree := []
    answers := []
    exports := [{ id := 5, client := .localCap 0, refCount := 1 }]
    exportIdNext := 6
    imports := []
    mainFunc := none }

/-- A results return for question 7 whose payload references export 5. -/
def exReturn : Message :=
  .returnMsg (.ok
    { answerId := 7, releaseParamCaps := false,
      variant := .results (.ok { capTable := .ok [.receiverHosted 5], content := .ok (.dataPtr 0) }) })

/-- A disembargo whose context is the out-of-spec `accept`/`provide`
variant, with a well-formed target. -/
def exDisembargoOther : Message :=
  .disembargoMsg (.ok { target := .ok (.importedCap 5), context := .otherCtx })

/-! ## C1 -/

/-- C1 counterexample: the claim states that a return received for a
canceled question has the result capabilities referenced in its payload
released.  On a live connection with canceled question 7 and export 5,
a results return for question 7 whose payload references export 5
produces no effects at all — in particular no `releaseExportEff 5`
effect — and leaves export 5 with its refcount of 1.  The code merely
drops the return. -/
theorem c1_counterexample :
    (handleMessage exState exReturn).2 = [] ∧
    (handleMessage exState exReturn).1.exports =
      [{ id := 5, client := .localCap 0, refCount := 1 }] ∧
    Effect.releaseExportEff 5 1 ∉ (handleMessage exState exReturn).2 := by
  decide

/-- C1 amended: for every return received for a question whose local
state is canceled, the dispatcher discards the return without fulfilling
or rejecting the question and without sending a second finish; the only
effects are the param-cap releases requested by the return's
`releaseParamCaps` flag — the result capabilities referenced in the
payload are not touched.  The question is removed from the table. -/
theorem c1_canceled_return_discarded (s : ConnState) (ret : ReturnMsg) (q : Question)
    (hfind : s.questions.find? (fun q2 => q2.id == ret.answerId) = some q)
    (hcanceled : q.state = .canceled) :
    (handleMessage s (.returnMsg (.ok ret))).2 =
      (if ret.releaseParamCaps then releaseEffects q.paramCaps else []) ∧
    (handleMessage s (.returnMsg (.ok ret))).1.questions =
      s.questions.filter (fun q2 => q2.id != ret.answerId) ∧
    (∀ e ∈ (handleMessage s (.returnMsg (.ok ret))).2, ∃ i, e = .releaseExportEff i 1) := by
  have hrun : handleMessage s (.returnMsg (.ok ret)) =
      ((if ret.releaseParamCaps then
          releaseExportList ((popQuestion s ret.answerId).2) q.paramCaps
        else (popQuestion s ret.answerId).2),
        if ret.releaseParamCaps then releaseEffects q.paramCaps else []) := by
    simp [handleMessage, handleReturnMessage, popQuestion, hfind, hcanceled]
  refine ⟨by rw [hrun], ?_, ?_⟩
  · rw [hrun]
    by_cases hr : ret.releaseParamCaps <;>
      simp [hr, releaseExportList_questions, popQuestion, hfind]
  · intro e he
    rw [hrun] at he
    by_cases hr : ret.releaseParamCaps
    · simp only [hr, if_true, releaseEffects, List.mem_map] at he
      obtain ⟨i, _, hi⟩ := he
      exact ⟨i, hi.symm⟩
    · simp [hr] at he

/-- C1 witness: the amended theorem applied to a live connection with a
canceled question 3 holding param caps `[5]`, receiving a results return
with `releaseParamCaps = true`. -/
theorem c1_witness :
    (handleMessage
        { manager := { done := false, terminalErr := .connClosed }
          questions := [{ id := 3, method := none, paramCaps := [5], state := .canceled, started := true }]
          questionIdNext := 4, questionIdFree := [], answers := []
          exports := [{ id := 5, client := .localCap 0, refCount := 2 }]
          exportIdNext := 6, imports := [], mainFunc := none }
        (.returnMsg (.ok { answerId := 3, releaseParamCaps := true, variant := .canceled }))).2 =
      (if true then releaseEffects [5] else []) ∧
    (handleMessage
        { manager := { done := false, terminalErr := .connClosed }
          questions := [{ id := 3, method := none, paramCaps := [5], state := .canceled, started := true }]
          questionIdNext := 4, questionIdFree := [], answers := []
          exports := [{ id := 5, client := .localCap 0, refCount := 2 }]
          exportIdNext := 6, imports := [], mainFunc := none }
        (.returnMsg (.ok { answerId := 3, releaseParamCaps := true, variant := .canceled }))).1.questions =
      [{ id := 3, method := none, paramCaps := [5], state := .canceled, started := true }].filter
        (fun q2 => q2.id != 3) ∧
    (∀ e ∈ (handleMessage
        { manager := { done := false, terminalErr := .connClosed }
          questions := [{ id := 3, method := none, paramCaps := [5], state := .canceled, started := true }]
          questionIdNext := 4, questionIdFree := [], answers := []
          exports := [{ id := 5, client := .localCap 0, refCount := 2 }]
          exportIdNext := 6, imports := [], mainFunc := none }
        (.returnMsg (.ok { answerId := 3, releaseParamCaps := true, variant := .canceled }))).2,
      ∃ i, e = .releaseExportEff i 1) :=
  c1_canceled_return_discarded _ _
    { id := 3, method := none, paramCaps := [5], state := .canceled, started := true }
    (by decide) (by decide)

/-! ## C2 -/

/-- C2 counterexample: the claim states that a decode failure of a
finish message aborts the connection.  On a live connection, a finish
message that fails to decode is merely logged: the dispatcher produces
only a `logged` effect, no abort message and no shutdown, and the state
(including the live manager) is unchanged. -/
theorem c2_counterexample :
    handleMessage exState (.finishMsg (.error (.decodeErr 0))) = (exState, [.logged]) ∧
    (handleMessage exState (.finishMsg (.error (.decodeErr 0)))).1.manager.done = false ∧
    (∀ er : RpcError,
      Effect.shutdown er ∉ (handleMessage exState (.finishMsg (.error (.decodeErr 0)))).2 ∧
      Effect.send (.abortOut er) ∉ (handleMessage exState (.finishMsg (.error (.decodeErr 0)))).2) := by
  refine ⟨rfl, rfl, fun er => ⟨by simp [handleMessage], by simp [handleMessage]⟩⟩

/-- C2 amended: a decode failure of an inbound return, finish,
bootstrap, call or release message is logged and the message skipped
with the connection state untouched; only a decode failure of a
disembargo message aborts the connection (abort message plus shutdown
carrying the decode error). -/
theorem c2_decode_failures (s : ConnState) (e : RpcError) :
    handleMessage s (.returnMsg (.error e)) = (s, [.logged]) ∧
    handleMessage s (.finishMsg (.error e)) = (s, [.logged]) ∧
    handleMessage s (.bootstrapMsg (.error e)) = (s, [.logged]) ∧
    handleMessage s (.callMsg (.error e)) = (s, [.logged]) ∧
    handleMessage s (.releaseMsg (.error e)) = (s, [.logged]) ∧
    handleMessage s (.disembargoMsg (.error e)) =
      (managerShutdown s e, [.send (.abortOut e), .shutdown e]) :=
  ⟨rfl, rfl, rfl, rfl, rfl, rfl⟩

/-! ## C3 -/

/-- C3 counterexample: the claim states that any disembargo context
variant other than `senderLoopback`/`receiverLoopback` aborts the
connection.  A well-decoded disembargo with the out-of-spec context on a
live connection is instead answered with an unimplemented echo: the
state (manager still live) is unchanged and no abort or shutdown effect
is produced. -/
theorem c3_counterexample :
    handleMessage exState exDisembargoOther =
      (exState, [.send (.unimplementedEcho exDisembargoOther)]) ∧
    (handleMessage exState exDisembargoOther).1.manager.done = false := by
  exact ⟨rfl, rfl⟩

/-- C3 amended: for a received disembargo, any decoding error (of the
disembargo itself, of its target, or of a promised-answer target) aborts
the connection, while a context variant other than
`senderLoopback`/`receiverLoopback` (the out-of-spec `accept` and
`provide`) is answered with an unimplemented echo and leaves the
connection running. -/
theorem c3_disembargo_failures (s : ConnState) (e : RpcError) (c : DisembargoContext)
    (tgt : MessageTarget) (id : Nat) :
    handleMessage s (.disembargoMsg (.error e)) =
      (managerShutdown s e, [.send (.abortOut e), .shutdown e]) ∧
    handleMessage s (.disembargoMsg (.ok { target := .error e, context := c })) =
      (managerShutdown s e, [.send (.abortOut e), .shutdown e]) ∧
    handleMessage s
        (.disembargoMsg (.ok { target := .ok (.promisedAnswer (.error e)),
                               context := .senderLoopback id })) =
      (managerShutdown s e, [.send (.abortOut e), .shutdown e]) ∧
    handleMessage s (.disembargoMsg (.ok { target := .ok tgt, context := .otherCtx })) =
      (s, [.send (.unimplementedEcho
            (.disembargoMsg (.ok { target := .ok tgt, context := .otherCtx })))]) := by
  refine ⟨rfl, ?_, rfl, ?_⟩
  · cases c <;> rfl
  · rfl

/-! ## C4 -/

/-- C4: for a return received for a known, non-canceled question:
the `results` variant populates the cap table and fulfills the question,
then sends `finish` with `releaseResultCaps = false`; the `exception`
variant rejects the question with the (wrapped) exception and sends
`finish` with `releaseResultCaps = true`; the `canceled` variant rejects
with the `receiver reported canceled` error and sends no finish; any
other variant is answered with an unimplemented echo and sends no
finish.  A finish is thus sent exactly for `results` and `exception`,
with `releaseResultCaps` true exactly when the variant is not
`results`. -/
theorem c4_known_return_dispatch (s ps : ConnState) (aid : Nat) (rlp : Bool) (q : Question)
    (pay : Payload) (s3 : ConnState) (caps : List Client) (content : Ptr) (exc : Exc)
    (hpq : popQuestion s aid = (some q, ps))
    (hstate : q.state ≠ .canceled)
    (hpop : populateMessageCapTable
        (if rlp then releaseExportList ps q.paramCaps else ps) pay = (s3, .ok caps))
    (hcontent : pay.content = .ok content) :
    handleMessage s (.returnMsg (.ok
        { answerId := aid, releaseParamCaps := rlp, variant := .results (.ok pay) })) =
      (s3, (if rlp then releaseEffects q.paramCaps else []) ++
        [.fulfillQuestion q.id content caps, .send (.finishOut q.id false)]) ∧
    handleMessage s (.returnMsg (.ok
        { answerId := aid, releaseParamCaps := rlp, variant := .exception (.ok exc) })) =
      ((if rlp then releaseExportList ps q.paramCaps else ps),
       (if rlp then releaseEffects q.paramCaps else []) ++
        [.rejectQuestion q.id .resolved (wrapReturnError q.method (.exceptionErr exc)),
         .send (.finishOut q.id true)]) ∧
    handleMessage s (.returnMsg (.ok
        { answerId := aid, releaseParamCaps := rlp, variant := .canceled })) =
      ((if rlp then releaseExportList ps q.paramCaps else ps),
       (if rlp then releaseEffects q.paramCaps else []) ++
        [.logged, .rejectQuestion q.id .resolved (.receiverCanceled aid q.method)]) ∧
    handleMessage s (.returnMsg (.ok
        { answerId := aid, releaseParamCaps := rlp, variant := .otherRet })) =
      ((if rlp then releaseExportList ps q.paramCaps else ps),
       (if rlp then releaseEffects q.paramCaps else []) ++
        [.send (.unimplementedEcho (.returnMsg (.ok
          { answerId := aid, releaseParamCaps := rlp, variant := .otherRet }))), .logged]) := by
  refine ⟨?_, ?_, ?_, ?_⟩ <;>
    simp [handleMessage, handleReturnMessage, hpq, hstate, hpop, hcontent]

/-- The in-progress question of the C4 witness. -/
def c4q : Question :=
  { id := 7, method := some { interfaceId := 9, methodId := 1 }, paramCaps := [],
    state := .inProgress, started := true }

/-- The C4 witness connection: one in-progress question, empty tables. -/
def c4s : ConnState :=
  { manager := { done := false, terminalErr := .connClosed }
    questions := [c4q], questionIdNext := 8, questionIdFree := []
    answers := [], exports := [], exportIdNext := 0, imports := [], mainFunc := none }

/-- The C4 witness connection after question 7 is popped. -/
def c4ps : ConnState := { c4s with questions := [], questionIdFree := [7] }

/-- The C4 witness connection after the results payload imported cap 2. -/
def c4s3 : ConnState := { c4ps with imports := [{ id := 2, refCount := 1 }] }

/-- The results payload of the C4 witness: one `senderHosted` cap. -/
def c4pay : Payload := { capTable := .ok [.senderHosted 2], content := .ok (.dataPtr 3) }

/-- C4 witness: the dispatch theorem applied to a concrete connection
holding in-progress question 7, for each return variant. -/
theorem c4_witness :
    handleMessage c4s (.returnMsg (.ok
        { answerId := 7, releaseParamCaps := false, variant := .results (.ok c4pay) })) =
      (c4s3, (if false then releaseEffects c4q.paramCaps else []) ++
        [.fulfillQuestion c4q.id (.dataPtr 3) [.importClient 2],
         .send (.finishOut c4q.id false)]) ∧
    handleMessage c4s (.returnMsg (.ok
        { answerId := 7, releaseParamCaps := false,
          variant := .exception (.ok { reason := "boom" }) })) =
      ((if false then releaseExportList c4ps c4q.paramCaps else c4ps),
       (if false then releaseEffects c4q.paramCaps else []) ++
        [.rejectQuestion c4q.id .resolved
           (wrapReturnError c4q.method (.exceptionErr { reason := "boom" })),
         .send (.finishOut c4q.id true)]) ∧
    handleMessage c4s (.returnMsg (.ok
        { answerId := 7, releaseParamCaps := false, variant := .canceled })) =
      ((if false then releaseExportList c4ps c4q.paramCaps else c4ps),
       (if false then releaseEffects c4q.paramCaps else []) ++
        [.logged, .rejectQuestion c4q.id .resolved (.receiverCanceled 7 c4q.method)]) ∧
    handleMessage c4s (.returnMsg (.ok
        { answerId := 7, releaseParamCaps := false, variant := .otherRet })) =
      ((if false then releaseExportList c4ps c4q.paramCaps else c4ps),
       (if false then releaseEffects c4q.paramCaps else []) ++
        [.send (.unimplementedEcho (.returnMsg (.ok
          { answerId := 7, releaseParamCaps := false, variant := .otherRet }))), .logged]) :=
  c4_known_return_dispatch c4s c4ps 7 false c4q c4pay c4s3 [.importClient 2] (.dataPtr 3)
    { reason := "boom" } (by decide) (by decide) (by decide) (by decide)

/-! ## C5 -/

/-- C5: for a received call message, a cap-table violation while
populating the parameters (a descriptor referencing an unknown export id
or an unknown answer id) aborts the connection — abort message plus
shutdown — whereas a routing error only rejects the newly inserted
answer and leaves the manager untouched.  In particular an unknown
export target, a self-referent promised answer (grandfather paradox),
and an unknown promised answer all produce the `bad target` routing
error. -/
theorem c5_call_error_handling
    (sA : ConnState) (mA : CallMsg) (mtA : MessageTarget) (payA : Payload)
    (sA1 : ConnState) (eidA : Nat) (eA : RpcError)
    (sB : ConnState) (mB : CallMsg) (mtB : MessageTarget) (payB : Payload)
    (sB1 sB2 sB3 : ConnState) (capsB : List Client) (aB : Answer) (contentB : Ptr)
    (effsB : List Effect) (errB : RpcError)
    (sC : ConnState) (aC : Answer) (eidC : Nat)
    (sD : ConnState) (aD : Answer) (paD : PromisedAnswerMsg)
    (sE : ConnState) (aE : Answer) (paE : PromisedAnswerMsg)
    (hA1 : mA.target = .ok mtA) (hA2 : validCallTarget mtA = true)
    (hA3 : mA.params = .ok payA)
    (hA4 : populateMessageCapTable sA payA = (sA1, .error eA))
    (hA5 : eA = .unknownExportId eidA ∨ eA = .unknownAnswerId eidA)
    (hB1 : mB.target = .ok mtB) (hB2 : validCallTarget mtB = true)
    (hB3 : mB.params = .ok payB)
    (hB4 : populateMessageCapTable sB payB = (sB1, .ok capsB))
    (hB5 : insertAnswer sB1 mB.questionId = some (aB, sB2))
    (hB6 : payB.content = .ok contentB)
    (hB7 : routeCallMessage sB2 aB mtB = (sB3, effsB, some errB))
    (hC : findExport sC eidC = none)
    (hD : paD.questionId = aD.id)
    (hE1 : (paE.questionId == aE.id) = false)
    (hE2 : findAnswer sE paE.questionId = none) :
    handleMessage sA (.callMsg (.ok mA)) =
      (managerShutdown sA1 eA, [.send (.abortOut eA), .shutdown eA, .logged]) ∧
    handleMessage sB (.callMsg (.ok mB)) =
      (resolveAnswerInState sB2 aB.id (.error errB), [.rejectAnswer aB.id errB]) ∧
    (handleMessage sB (.callMsg (.ok mB))).1.manager = sB.manager ∧
    routeCallMessage sC aC (.importedCap eidC) = (sC, [], some .badTarget) ∧
    routeCallMessage sD aD (.promisedAnswer (.ok paD)) = (sD, [], some .badTarget) ∧
    routeCallMessage sE aE (.promisedAnswer (.ok paE)) = (sE, [], some .badTarget) := by
  obtain ⟨hs3, heffs⟩ := routeCallMessage_error_inv sB2 aB mtB sB3 effsB errB hB7
  rw [hs3, heffs] at hB7
  have hBrun : handleMessage sB (.callMsg (.ok mB)) =
      (resolveAnswerInState sB2 aB.id (.error errB), [.rejectAnswer aB.id errB]) := by
    simp [handleMessage, handleCallMessage, hB1, hB2, hB3, hB4, hB5, hB6, hB7]
  have hBman : sB2.manager = sB.manager := by
    have h1 : sB1.manager = sB.manager := by
      have h := populateMessageCapTable_manager sB payB
      rw [hB4] at h
      simpa using h
    exact (insertAnswer_manager sB1 mB.questionId aB sB2 hB5).trans h1
  refine ⟨?_, hBrun, ?_, ?_, ?_, ?_⟩
  · rcases hA5 with h | h <;> subst h <;>
      simp [handleMessage, handleCallMessage, hA1, hA2, hA3, hA4, abortConn]
  · rw [hBrun]
    simpa [resolveAnswerInState] using hBman
  · simp [routeCallMessage, hC]
  · simp [routeCallMessage, hD]
  · simp [routeCallMessage, hE1, hE2]

/-- The empty live connection used by several witnesses. -/
def emptyState : ConnState :=
  { manager := { done := false, terminalErr := .connClosed }
    questions := [], questionIdNext := 0, questionIdFree := []
    answers := [], exports := [], exportIdNext := 0, imports := [], mainFunc := none }

/-- The answer freshly inserted for id `id`. -/
def freshAnswer (id : Nat) : Answer :=
  { id := id, resolution := none, queuedCalls := [], queuedDisembargoes := [], resultCaps := [] }

/-- An empty payload (no capabilities, null content). -/
def emptyPayload : Payload := { capTable := .ok [], content := .ok .null }

/-- C5 witness: the theorem applied to concrete inputs — a call whose
payload references unknown export 9 (aborts) and a call targeting
unknown export 3 (rejected with bad target). -/
theorem c5_witness :
    handleMessage emptyState (.callMsg (.ok
        { questionId := 1, interfaceId := 0, methodId := 0, target := .ok (.importedCap 0),
          params := .ok { capTable := .ok [.receiverHosted 9], content := .ok .null } })) =
      (managerShutdown emptyState (.unknownExportId 9),
        [.send (.abortOut (.unknownExportId 9)), .shutdown (.unknownExportId 9), .logged]) ∧
    handleMessage emptyState (.callMsg (.ok
        { questionId := 1, interfaceId := 0, methodId := 0, target := .ok (.importedCap 3),
          params := .ok emptyPayload })) =
      (resolveAnswerInState { emptyState with answers := [freshAnswer 1] } (freshAnswer 1).id
          (.error .badTarget),
        [.rejectAnswer (freshAnswer 1).id .badTarget]) ∧
    (handleMessage emptyState (.callMsg (.ok
        { questionId := 1, interfaceId := 0, methodId := 0, target := .ok (.importedCap 3),
          params := .ok emptyPayload }))).1.manager = emptyState.manager ∧
    routeCallMessage emptyState (freshAnswer 0) (.importedCap 3) =
      (emptyState, [], some .badTarget) ∧
    routeCallMessage emptyState (freshAnswer 1) (.promisedAnswer (.ok
        { questionId := 1, transform := .ok [] })) =
      (emptyState, [], some .badTarget) ∧
    routeCallMessage emptyState (freshAnswer 1) (.promisedAnswer (.ok
        { questionId := 2, transform := .ok [] })) =
      (emptyState, [], some .badTarget) :=
  c5_call_error_handling
    emptyState
    { questionId := 1, interfaceId := 0, methodId := 0, target := .ok (.importedCap 0),
      params := .ok { capTable := .ok [.receiverHosted 9], content := .ok .null } }
    (.importedCap 0) { capTable := .ok [.receiverHosted 9], content := .ok .null }
    emptyState 9 (.unknownExportId 9)
    emptyState
    { questionId := 1, interfaceId := 0, methodId := 0, target := .ok (.importedCap 3),
      params := .ok emptyPayload }
    (.importedCap 3) emptyPayload
    emptyState { emptyState with answers := [freshAnswer 1] }
    { emptyState with answers := [freshAnswer 1] } [] (freshAnswer 1) .null [] .badTarget
    emptyState (freshAnswer 0) 3
    emptyState (freshAnswer 1) { questionId := 1, transform := .ok [] }
    emptyState (freshAnswer 1) { questionId := 2, transform := .ok [] }
    (by decide) (by decide) (by decide) (by decide) (Or.inl rfl)
    (by decide) (by decide) (by decide) (by decide) (by decide) (by decide) (by decide)
    (by decide) (by decide) (by decide) (by decide)

/-! ## C6 -/

/-- C6: for a received bootstrap with question id: if the id is already
an existing answer id, the peer is sent `return` with the `question ID
reused` exception and the state is untouched; otherwise with no
bootstrap factory configured the fresh answer is rejected with `no main
interface`; otherwise the factory's capability is wrapped in a
single-capability interface pointer and the answer is fulfilled with
it. -/
theorem c6_bootstrap_handling
    (sA : ConnState) (idA : Nat) (aDup : Answer)
    (sB : ConnState) (idB : Nat)
    (sC : ConnState) (idC : Nat) (main : Client)
    (hdup : sA.answers.find? (fun a2 => a2.id == idA) = some aDup)
    (hfreshB : sB.answers.find? (fun a2 => a2.id == idB) = none)
    (hmainB : sB.mainFunc = none)
    (hfreshC : sC.answers.find? (fun a2 => a2.id == idC) = none)
    (hmainC : sC.mainFunc = some (.ok main)) :
    handleMessage sA (.bootstrapMsg (.ok idA)) =
      (sA, [.send (.returnExceptionOut idA .questionReused)]) ∧
    handleMessage sB (.bootstrapMsg (.ok idB)) =
      (resolveAnswerInState { sB with answers := sB.answers ++ [freshAnswer idB] } idB
          (.error .noMainInterface),
        [.rejectAnswer idB .noMainInterface]) ∧
    handleMessage sC (.bootstrapMsg (.ok idC)) =
      (resolveAnswerInState { sC with answers := sC.answers ++ [freshAnswer idC] } idC
          (.ok (.iface main)),
        [.fulfillAnswer idC (.iface main) [main]]) := by
  refine ⟨?_, ?_, ?_⟩
  · simp [handleMessage, handleBootstrapMessage, insertAnswer, hdup]
  · simp [handleMessage, handleBootstrapMessage, insertAnswer, hfreshB, hmainB, freshAnswer]
  · simp [handleMessage, handleBootstrapMessage, insertAnswer, hfreshC, hmainC, freshAnswer]

/-- The C6 witness state whose answer id 4 is already taken. -/
def c6dupState : ConnState := { emptyState with answers := [freshAnswer 4] }

/-- The C6 witness state with a configured bootstrap capability. -/
def c6mainState : ConnState := { emptyState with mainFunc := some (.ok (.localCap 7)) }

/-- C6 witness: the bootstrap theorem applied to concrete connections —
a duplicate id, a connection without a main interface, and a connection
whose factory yields `localCap 7`. -/
theorem c6_witness :
    handleMessage c6dupState (.bootstrapMsg (.ok 4)) =
      (c6dupState, [.send (.returnExceptionOut 4 .questionReused)]) ∧
    handleMessage emptyState (.bootstrapMsg (.ok 2)) =
      (resolveAnswerInState { emptyState with answers := emptyState.answers ++ [freshAnswer 2] } 2
          (.error .noMainInterface),
        [.rejectAnswer 2 .noMainInterface]) ∧
    handleMessage c6mainState (.bootstrapMsg (.ok 0)) =
      (resolveAnswerInState { c6mainState with answers := c6mainState.answers ++ [freshAnswer 0] } 0
          (.ok (.iface (.localCap 7))),
        [.fulfillAnswer 0 (.iface (.localCap 7)) [.localCap 7]]) :=
  c6_bootstrap_handling c6dupState 4 (freshAnswer 4) emptyState 2 c6mainState 0 (.localCap 7)
    (by decide) (by decide) (by decide) (by decide) (by decide)

/-! ## C7 -/

/-- C7: a call whose target is a promised answer referring to the call's
own new answer id (the grandfather paradox) is rejected with the
`bad target` error; the connection keeps running, no call is routed, and
no pipeline-queue entry is created on any answer. -/
theorem c7_grandfather_rejected (s : ConnState) (mcall : CallMsg) (mp : PromisedAnswerMsg)
    (pay : Payload) (s1 : ConnState) (caps : List Client) (content : Ptr)
    (a : Answer) (s2 : ConnState) (tgt2 : Client) (qid2 : Nat)
    (htgt : mcall.target = .ok (.promisedAnswer (.ok mp)))
    (hself : mp.questionId = mcall.questionId)
    (hpay : mcall.params = .ok pay)
    (hpop : populateMessageCapTable s pay = (s1, .ok caps))
    (hins : insertAnswer s1 mcall.questionId = some (a, s2))
    (hcontent : pay.content = .ok content) :
    handleMessage s (.callMsg (.ok mcall)) =
      (resolveAnswerInState s2 a.id (.error .badTarget), [.rejectAnswer a.id .badTarget]) ∧
    (handleMessage s (.callMsg (.ok mcall))).1.answers.map (fun a2 => a2.queuedCalls) =
      s2.answers.map (fun a2 => a2.queuedCalls) ∧
    (handleMessage s (.callMsg (.ok mcall))).1.manager = s2.manager ∧
    Effect.routedCall tgt2 ∉ (handleMessage s (.callMsg (.ok mcall))).2 ∧
    Effect.queuedPipelineCall qid2 ∉ (handleMessage s (.callMsg (.ok mcall))).2 := by
  have ha := insertAnswer_id s1 mcall.questionId a s2 hins
  have hroute : routeCallMessage s2 a (.promisedAnswer (.ok mp)) =
      (s2, [], some .badTarget) := by
    simp [routeCallMessage, hself, ha]
  have hrun : handleMessage s (.callMsg (.ok mcall)) =
      (resolveAnswerInState s2 a.id (.error .badTarget), [.rejectAnswer a.id .badTarget]) := by
    simp [handleMessage, handleCallMessage, htgt, hpay, hpop, hins, hcontent, hroute,
      validCallTarget]
  refine ⟨hrun, ?_, ?_, ?_, ?_⟩
  · rw [hrun]
    exact resolveAnswerInState_queuedCalls s2 a.id (.error .badTarget)
  · rw [hrun]
    rfl
  · rw [hrun]
    simp
  · rw [hrun]
    simp

/-- C7 witness: a concrete call with question id 4 targeting
`promisedAnswer 4` on the empty connection. -/
theorem c7_witness :
    handleMessage emptyState (.callMsg (.ok
        { questionId := 4, interfaceId := 0, methodId := 0,
          target := .ok (.promisedAnswer (.ok { questionId := 4, transform := .ok [] })),
          params := .ok emptyPayload })) =
      (resolveAnswerInState { emptyState with answers := [freshAnswer 4] } (freshAnswer 4).id
          (.error .badTarget),
        [.rejectAnswer (freshAnswer 4).id .badTarget]) ∧
    (handleMessage emptyState (.callMsg (.ok
        { questionId := 4, interfaceId := 0, methodId := 0,
          target := .ok (.promisedAnswer (.ok { questionId := 4, transform := .ok [] })),
          params := .ok emptyPayload }))).1.answers.map (fun a2 => a2.queuedCalls) =
      ({ emptyState with answers := [freshAnswer 4] } : ConnState).answers.map
        (fun a2 => a2.queuedCalls) ∧
    (handleMessage emptyState (.callMsg (.ok
        { questionId := 4, interfaceId := 0, methodId := 0,
          target := .ok (.promisedAnswer (.ok { questionId := 4, transform := .ok [] })),
          params := .ok emptyPayload }))).1.manager =
      ({ emptyState with answers := [freshAnswer 4] } : ConnState).manager ∧
    Effect.routedCall (.localCap 0) ∉ (handleMessage emptyState (.callMsg (.ok
        { questionId := 4, interfaceId := 0, methodId := 0,
          target := .ok (.promisedAnswer (.ok { questionId := 4, transform := .ok [] })),
          params := .ok emptyPayload }))).2 ∧
    Effect.queuedPipelineCall 0 ∉ (handleMessage emptyState (.callMsg (.ok
        { questionId := 4, interfaceId := 0, methodId := 0,
          target := .ok (.promisedAnswer (.ok { questionId := 4, transform := .ok [] })),
          params := .ok emptyPayload }))).2 :=
  c7_grandfather_rejected emptyState
    { questionId := 4, interfaceId := 0, methodId := 0,
      target := .ok (.promisedAnswer (.ok { questionId := 4, transform := .ok [] })),
      params := .ok emptyPayload }
    { questionId := 4, transform := .ok [] } emptyPayload emptyState [] .null
    (freshAnswer 4) { emptyState with answers := [freshAnswer 4] } (.localCap 0) 0
    (by decide) (by decide) (by decide) (by decide) (by decide) (by decide)

/-! ## C8 -/

/-- C8: when `Bootstrap`'s first select is won by the manager's finish
signal, the call returns an error capability carrying the manager's
terminal (shutdown) error and the state is untouched; when the mutex is
acquired but the enqueue select is lost to context cancellation or to
shutdown, the freshly allocated question is popped again — the question
table is restored — before the error capability (context error or
terminal error, respectively) is returned, and no message is sent. -/
theorem c8_bootstrap_select_paths (s : ConnState) (ctxErr : RpcError) (sendO : SendOutcome)
    (hfresh : ∀ q2 ∈ s.questions, q2.id ≠ (newQuestion s none).1.id) :
    Bootstrap s .lockShutdown sendO ctxErr = (s, .errorClient s.manager.terminalErr, []) ∧
    (Bootstrap s .locked .sendCtxDone ctxErr).1.questions = s.questions ∧
    (Bootstrap s .locked .sendCtxDone ctxErr).2.1 = .errorClient ctxErr ∧
    (Bootstrap s .locked .sendCtxDone ctxErr).2.2 = [] ∧
    (Bootstrap s .locked .sendShutdown ctxErr).1.questions = s.questions ∧
    (Bootstrap s .locked .sendShutdown ctxErr).2.1 = .errorClient s.manager.terminalErr ∧
    (Bootstrap s .locked .sendShutdown ctxErr).2.2 = [] := by
  have hpop := pop_new_question s none hfresh
  have hman := newQuestion_manager s none
  refine ⟨rfl, ?_, ?_, ?_, ?_, ?_, ?_⟩ <;>
  · cases hnq : newQuestion s none with
    | mk q s1 =>
      rw [hnq] at hpop hman
      simp only at hpop hman
      simp [Bootstrap, hnq, hpop, hman]

/-- C8 witness: the select-path theorem applied to the empty
connection with a canceled-context error. -/
theorem c8_witness :
    Bootstrap emptyState .lockShutdown .sent .ctxCanceled =
      (emptyState, .errorClient emptyState.manager.terminalErr, []) ∧
    (Bootstrap emptyState .locked .sendCtxDone .ctxCanceled).1.questions =
      emptyState.questions ∧
    (Bootstrap emptyState .locked .sendCtxDone .ctxCanceled).2.1 =
      .errorClient .ctxCanceled ∧
    (Bootstrap emptyState .locked .sendCtxDone .ctxCanceled).2.2 = [] ∧
    (Bootstrap emptyState .locked .sendShutdown .ctxCanceled).1.questions =
      emptyState.questions ∧
    (Bootstrap emptyState .locked .sendShutdown .ctxCanceled).2.1 =
      .errorClient emptyState.manager.terminalErr ∧
    (Bootstrap emptyState .locked .sendShutdown .ctxCanceled).2.2 = [] :=
  c8_bootstrap_select_paths emptyState .ctxCanceled .sent (by simp [emptyState])

/-! ## C9 -/

/-- C9: `Close` is idempotent — the first call on a live connection
shuts the manager down with `ErrConnClosed`, sends the best-effort
abort, and closes the transport; any later call performs none of those
effects and returns `ErrConnClosed`. -/
theorem c9_close_idempotent (s : ConnState) (werr cerr w2 c2 : Option RpcError)
    (hlive : s.manager.done = false) :
    Close s werr cerr =
      ({ s with manager := { done := true, terminalErr := .connClosed } },
        (match werr with | some e => some e | none => cerr),
        [.shutdown .connClosed, .send (.abortOut .shutdownErr), .closeTransport]) ∧
    Close (Close s werr cerr).1 w2 c2 = ((Close s werr cerr).1, some .connClosed, []) := by
  constructor
  · simp [Close, hlive, managerShutdown]
  · simp [Close, hlive, managerShutdown]

/-- C9 witness: `Close` applied twice to a concrete live connection. -/
theorem c9_witness :
    Close exState none none =
      ({ exState with manager := { done := true, terminalErr := .connClosed } },
        (match (none : Option RpcError) with | some e => some e | none => (none : Option RpcError)),
        [.shutdown .connClosed, .send (.abortOut .shutdownErr), .closeTransport]) ∧
    Close (Close exState none none).1 none none =
      ((Close exState none none).1, some .connClosed, []) :=
  c9_close_idempotent exState none none none none (by decide)

/-! ## C10 -/

/-- C10: when the allocation of the outbound capability-descriptor list
fails, `makeCapTable` returns an empty descriptor list together with a
nil error, regardless of how many clients the message's cap table holds:
the failure is silently swallowed. -/
theorem c10_makeCapTable_swallows_alloc_failure (s : ConnState) (msgtab : List Client) :
    makeCapTable s true msgtab = (s, [], none) :=
  rfl

end CapnpRpc
